import Mathlib

/-!
# Verification of the Oracle stock-scoring engine

Shallow embedding, in Lean 4, of the scoring/aggregation core of the
Oracle repository (src/multibagger.py, src/pillar1_fundamental.py,
src/pillar2_technical.py, src/pillar3_sentiment.py).

Modelling conventions:
* Python floats are modelled as exact rationals (`ℚ`).  All thresholds in the
  source are decimal literals, so this is faithful up to floating-point
  rounding noise, which none of the verified properties depend on.
* A `dict.get(key, default)` access is modelled by an `Option ℚ` field plus
  `Option.getD`.  Python truthiness of a numeric value (`if x:`) is modelled
  by the test `x ≠ 0`; truthiness of a possibly-`None` value is a `match` on
  the `Option` plus the `≠ 0` test on the carried value.
* The external data source (yfinance) is modelled as an injected function
  `String → Option TickerData`; `none` stands for a fetch that raises.
* Quantities the source extracts from the price-history DataFrame
  (row count, closing prices at fixed offsets, rolling means, RSI, volumes)
  are carried in `HistStats` / the pillar-2 input structures; the scorers'
  branching logic on those quantities is transcribed from the source.
-/

/-- The `info` mapping returned by the data provider for one ticker
(the subset of keys the scoring core reads).  `none` models an absent key. -/
structure Info where
  market_cap : Option ℚ := none
  trailing_pe : Option ℚ := none
  peg_ratio : Option ℚ := none
  price_to_book : Option ℚ := none
  price_to_sales : Option ℚ := none
  revenue_growth : Option ℚ := none
  earnings_growth : Option ℚ := none
  revenue_quarterly_growth : Option ℚ := none
  earnings_quarterly_growth : Option ℚ := none
  profit_margins : Option ℚ := none
  operating_margins : Option ℚ := none
  return_on_equity : Option ℚ := none
  return_on_assets : Option ℚ := none
  debt_to_equity : Option ℚ := none
  current_ratio : Option ℚ := none
  quick_ratio : Option ℚ := none
  free_cashflow : Option ℚ := none
  operating_cashflow : Option ℚ := none
  dividend_yield : Option ℚ := none
  payout_ratio : Option ℚ := none
  held_percent_insiders : Option ℚ := none
  held_percent_institutions : Option ℚ := none
  sector : Option String := none
  deriving Repr, DecidableEq

/-- Values `_calculate_momentum_score` (and `analyze_multibagger_potential`)
extracts from the one-year price history DataFrame: its row count, the last
close, the closes 126 and 63 rows back (only read when the row count makes
them meaningful), the last RSI(14) value (`none` when the RSI computation
raises), the last 50-day rolling mean of the close, and the last 200-day
rolling mean (`none` when fewer than 200 rows, mirroring the source's
conditional). -/
structure HistStats where
  len : ℕ
  current_price : ℚ
  price_6m_ago : ℚ
  price_3m_ago : ℚ
  rsi : Option ℚ
  ma50 : ℚ
  ma200 : Option ℚ
  deriving Repr, DecidableEq

/-- `MultibaggerHunter.__init__`: the sector-theme weight table
`self.indonesian_themes`; `dict.get(sector, 0)` is the final else-branch. -/
def indonesian_themes (s : String) : ℚ :=
  if s = "Mining" then 2
  else if s = "Energy" then 1.5
  else if s = "Technology" then 2
  else if s = "Consumer Cyclical" then 1.5
  else if s = "Financial Services" then 1
  else if s = "Industrials" then 1.5
  else if s = "Basic Materials" then 1.5
  else 0

/-- `MultibaggerHunter._calculate_size_score` (src/multibagger.py 145-169):
market-cap band ladder on `info.get('marketCap', 0)`. -/
def calculate_size_score (info : Info) : ℚ :=
  let mcap := (info.market_cap).getD 0
  if mcap = 0 then 0
  else
    let mcap_b := mcap / 1000000000
    if mcap_b < 0.5 then 40
    else if mcap_b < 1 then 100
    else if mcap_b < 3 then 85
    else if mcap_b < 5 then 70
    else if mcap_b < 10 then 50
    else 30

/-- Revenue-growth block of `_calculate_growth_score` (lines 179-190).
The argument is `info.get('revenueGrowth', 0)`; the outer guard is Python
truthiness (`if rev_growth:`), so the value 0 — absent key or a present
value of exactly 0 — contributes nothing. -/
def growth_rev_points (rev_growth : ℚ) : ℚ :=
  if rev_growth ≠ 0 then
    if rev_growth > 0.50 then 35
    else if rev_growth > 0.30 then 40
    else if rev_growth > 0.20 then 35
    else if rev_growth > 0.10 then 20
    else 5
  else 0

/-- Earnings-growth block of `_calculate_growth_score` (lines 193-202). -/
def growth_earnings_points (earnings_growth : ℚ) : ℚ :=
  if earnings_growth ≠ 0 then
    if earnings_growth > 0.40 then 40
    else if earnings_growth > 0.25 then 35
    else if earnings_growth > 0.15 then 25
    else 10
  else 0

/-- Quarterly-revenue block of `_calculate_growth_score` (lines 205-207). -/
def growth_quarterly_points (q_rev_growth : ℚ) : ℚ :=
  if q_rev_growth ≠ 0 ∧ q_rev_growth > 0.20 then 20 else 0

/-- `MultibaggerHunter._calculate_growth_score` (src/multibagger.py 171-209). -/
def calculate_growth_score (info : Info) : ℚ :=
  min (growth_rev_points ((info.revenue_growth).getD 0)
      + growth_earnings_points ((info.earnings_growth).getD 0)
      + growth_quarterly_points ((info.revenue_quarterly_growth).getD 0)) 100

/-- PEG block of `_calculate_valuation_score` (lines 219-232):
`info.get('pegRatio', None)`; `if peg:` sends both an absent key and a
present value of exactly 0 to the `else` branch worth 20 points. -/
def valuation_peg_points (peg : Option ℚ) : ℚ :=
  match peg with
  | none => 20
  | some p =>
    if p ≠ 0 then
      if 0 < p ∧ p < 0.5 then 50
      else if p < 1 then 45
      else if p < 1.5 then 35
      else if p < 2 then 25
      else 10
    else 20

/-- P/E block of `_calculate_valuation_score` (lines 235-244). -/
def valuation_pe_points (pe : Option ℚ) : ℚ :=
  match pe with
  | none => 0
  | some p =>
    if p ≠ 0 then
      if 5 < p ∧ p < 15 then 30
      else if 15 ≤ p ∧ p < 25 then 25
      else if 25 ≤ p ∧ p < 40 then 15
      else 5
    else 0

/-- P/B block of `_calculate_valuation_score` (lines 247-249). -/
def valuation_pb_points (pb : Option ℚ) : ℚ :=
  match pb with
  | none => 0
  | some b => if b ≠ 0 ∧ 0 < b ∧ b < 3 then 20 else 0

/-- `MultibaggerHunter._calculate_valuation_score` (src/multibagger.py 211-251). -/
def calculate_valuation_score (info : Info) : ℚ :=
  min (valuation_peg_points info.peg_ratio
      + valuation_pe_points info.trailing_pe
      + valuation_pb_points info.price_to_book) 100

/-- Profit-margin block of `_calculate_quality_score` (lines 260-269). -/
def quality_margin_points (profit_margin : ℚ) : ℚ :=
  if profit_margin ≠ 0 then
    if profit_margin > 0.20 then 25
    else if profit_margin > 0.10 then 20
    else if profit_margin > 0.05 then 15
    else 5
  else 0

/-- ROE block of `_calculate_quality_score` (lines 272-281). -/
def quality_roe_points (roe : ℚ) : ℚ :=
  if roe ≠ 0 then
    if roe > 0.25 then 25
    else if roe > 0.15 then 20
    else if roe > 0.10 then 15
    else 5
  else 0

/-- Debt block of `_calculate_quality_score` (lines 284-295): an absent or
zero debt-to-equity is rewarded with 20 points ("possibly debt-free"). -/
def quality_debt_points (debt_to_equity : ℚ) : ℚ :=
  if debt_to_equity ≠ 0 then
    if debt_to_equity < 30 then 25
    else if debt_to_equity < 50 then 20
    else if debt_to_equity < 100 then 15
    else 5
  else 20

/-- Current-ratio block of `_calculate_quality_score` (lines 298-305);
the inner ladder has no final else, so a truthy ratio ≤ 1 adds nothing. -/
def quality_current_points (current_ratio : ℚ) : ℚ :=
  if current_ratio ≠ 0 then
    if current_ratio > 2 then 15
    else if current_ratio > 1.5 then 12
    else if current_ratio > 1 then 8
    else 0
  else 0

/-- Operating-cash-flow block of `_calculate_quality_score` (lines 308-309). -/
def quality_ocf_points (ocf : ℚ) : ℚ :=
  if ocf > 0 then 10 else 0

/-- `MultibaggerHunter._calculate_quality_score` (src/multibagger.py 253-311). -/
def calculate_quality_score (info : Info) : ℚ :=
  min (quality_margin_points ((info.profit_margins).getD 0)
      + quality_roe_points ((info.return_on_equity).getD 0)
      + quality_debt_points ((info.debt_to_equity).getD 0)
      + quality_current_points ((info.current_ratio).getD 0)
      + quality_ocf_points ((info.operating_cashflow).getD 0)) 100

/-- Volume-anomaly block of `_calculate_catalyst_score` (lines 321-330);
`avg_volume` and `recent_volume` are the full-period and 20-day means of the
history's Volume column. -/
def catalyst_volume_points (avg_volume recent_volume : ℚ) : ℚ :=
  if avg_volume > 0 then
    let volume_ratio := recent_volume / avg_volume
    if volume_ratio > 3 then 30
    else if volume_ratio > 2 then 20
    else if volume_ratio > 1.5 then 10
    else 0
  else 0

/-- Insider-ownership block of `_calculate_catalyst_score` (lines 338-345). -/
def catalyst_insider_points (insider_pct : ℚ) : ℚ :=
  if insider_pct ≠ 0 then
    if insider_pct > 0.30 then 20
    else if insider_pct > 0.20 then 15
    else if insider_pct > 0.10 then 10
    else 0
  else 0

/-- Institutional-ownership block of `_calculate_catalyst_score` (348-353). -/
def catalyst_institution_points (inst_pct : ℚ) : ℚ :=
  if inst_pct ≠ 0 then
    if inst_pct < 0.30 then 15
    else if inst_pct < 0.50 then 10
    else 0
  else 0

/-- Explosive-growth block of `_calculate_catalyst_score` (lines 356-358). -/
def catalyst_growth_points (rev_growth : ℚ) : ℚ :=
  if rev_growth ≠ 0 ∧ rev_growth > 0.50 then 20 else 0

/-- `MultibaggerHunter._calculate_catalyst_score` (src/multibagger.py 313-360). -/
def calculate_catalyst_score (info : Info) (avg_volume recent_volume : ℚ) : ℚ :=
  min (catalyst_volume_points avg_volume recent_volume
      + indonesian_themes ((info.sector).getD "") * 15
      + catalyst_insider_points ((info.held_percent_insiders).getD 0)
      + catalyst_institution_points ((info.held_percent_institutions).getD 0)
      + catalyst_growth_points ((info.revenue_growth).getD 0)) 100

/-- 6-month-momentum block of `_calculate_momentum_score` (lines 374-385). -/
def momentum_6m_points (h : HistStats) : ℚ :=
  if 126 ≤ h.len then
    let momentum_6m := (h.current_price / h.price_6m_ago - 1) * 100
    if momentum_6m > 50 then 30
    else if momentum_6m > 25 then 25
    else if momentum_6m > 10 then 20
    else if momentum_6m > 0 then 10
    else 0
  else 0

/-- 3-month-momentum block of `_calculate_momentum_score` (lines 388-397). -/
def momentum_3m_points (h : HistStats) : ℚ :=
  if 63 ≤ h.len then
    let momentum_3m := (h.current_price / h.price_3m_ago - 1) * 100
    if momentum_3m > 30 then 25
    else if momentum_3m > 15 then 20
    else if momentum_3m > 5 then 15
    else 0
  else 0

/-- RSI block of `_calculate_momentum_score` (lines 400-413); `none` models
the `except: pass` path where the RSI computation raises. -/
def momentum_rsi_points (rsi : Option ℚ) : ℚ :=
  match rsi with
  | none => 0
  | some r =>
    if 40 ≤ r ∧ r ≤ 70 then 20
    else if 30 ≤ r ∧ r < 40 then 15
    else 0

/-- Moving-average block of `_calculate_momentum_score` (lines 416-422);
`ma200` is `None` when the history is shorter than 200 rows, and the
`if ma200 and ...` guard is Python truthiness. -/
def momentum_ma_points (h : HistStats) : ℚ :=
  (if h.current_price > h.ma50 then 15 else 0)
  + (match h.ma200 with
     | none => 0
     | some m => if m ≠ 0 ∧ h.current_price > m then 10 else 0)

/-- `MultibaggerHunter._calculate_momentum_score` (src/multibagger.py 362-424). -/
def calculate_momentum_score (h : HistStats) : ℚ :=
  if h.len < 50 then 0
  else
    min (momentum_6m_points h + momentum_3m_points h
        + momentum_rsi_points h.rsi + momentum_ma_points h) 100

/-- `MultibaggerHunter._estimate_return_potential` (src/multibagger.py 528-541). -/
def estimate_return_potential (score : ℚ) (num_catalysts : ℕ) : String :=
  if score ≥ 85 ∧ num_catalysts ≥ 4 then "500-1000%+ (10-bagger potential)"
  else if score ≥ 80 ∧ num_catalysts ≥ 3 then "300-500% (4-6 bagger)"
  else if score ≥ 75 ∧ num_catalysts ≥ 2 then "200-300% (3-4 bagger)"
  else if score ≥ 70 then "100-200% (2-3 bagger)"
  else "50-100% (modest multibagger)"

/-- Python `round(x)` modelled on exact rationals: nearest integer, ties to
even (binary-float representation noise of the source is out of scope). -/
def py_round_int (q : ℚ) : ℤ :=
  let f := ⌊q⌋
  if q - f < 1/2 then f
  else if q - f > 1/2 then f + 1
  else if Even f then f else f + 1

/-- Python `round(x, 2)` on exact rationals. -/
def py_round2 (q : ℚ) : ℚ := (py_round_int (q * 100) : ℚ) / 100

/-- The per-ticker record built by `analyze_multibagger_potential`
(src/multibagger.py 119-140).  Reporting-only echoes of raw metrics
(`name`, `risk_level`, `current_price`, `pe_ratio`, `peg_ratio`,
`revenue_growth`, `profit_margin`), which no scoring or ranking logic reads
back, are omitted. -/
structure AnalysisResult where
  ticker : String
  sector : String
  multibagger_score : ℚ
  size_score : ℚ
  growth_score : ℚ
  valuation_score : ℚ
  quality_score : ℚ
  catalyst_score : ℚ
  momentum_score : ℚ
  catalysts : List String
  num_catalysts : ℕ
  return_potential : String
  market_cap : ℚ
  deriving Repr, DecidableEq

/-- Everything `analyze_multibagger_potential` obtains from the external
data source for one ticker: the `info` mapping, the quantities it extracts
from the one-year price history, the full-period and 20-day mean volumes,
and the catalyst tags `_detect_catalysts` derives from the same data. -/
structure TickerData where
  info : Info
  hist : HistStats
  avg_volume : ℚ
  recent_volume : ℚ
  catalysts : List String
  deriving Repr, DecidableEq

/-- `MultibaggerHunter.analyze_multibagger_potential` (src/multibagger.py
78-143): returns `none` when the fetched history is empty or shorter than
50 rows, otherwise assembles the scored record.  The weighted composite of
lines 99-106 is formed with no clamp; the record stores it (and each
component) rounded to two decimals, exactly as lines 123-129 do. -/
def analyze_multibagger_potential (ticker : String) (info : Info) (hist : HistStats)
    (avg_volume recent_volume : ℚ) (catalysts : List String) : Option AnalysisResult :=
  if hist.len = 0 ∨ hist.len < 50 then none
  else
    let size_score := calculate_size_score info
    let growth_score := calculate_growth_score info
    let valuation_score := calculate_valuation_score info
    let quality_score := calculate_quality_score info
    let catalyst_score := calculate_catalyst_score info avg_volume recent_volume
    let momentum_score := calculate_momentum_score hist
    let multibagger_score :=
      size_score * 0.20 + growth_score * 0.25 + valuation_score * 0.15
      + quality_score * 0.15 + catalyst_score * 0.15 + momentum_score * 0.10
    some
      { ticker := ticker
        sector := (info.sector).getD "Unknown"
        multibagger_score := py_round2 multibagger_score
        size_score := py_round2 size_score
        growth_score := py_round2 growth_score
        valuation_score := py_round2 valuation_score
        quality_score := py_round2 quality_score
        catalyst_score := py_round2 catalyst_score
        momentum_score := py_round2 momentum_score
        catalysts := catalysts
        num_catalysts := catalysts.length
        return_potential := estimate_return_potential multibagger_score catalysts.length
        market_cap := (info.market_cap).getD 0 }

/-- One ticker's fetch-and-analyze step as `scan_market` invokes it; a
fetch that raises is `none` (caught by the `except` of either function). -/
def score_ticker (fetch : String → Option TickerData) (t : String) : Option AnalysisResult :=
  match fetch t with
  | none => none
  | some d => analyze_multibagger_potential t d.info d.hist d.avg_volume d.recent_volume d.catalysts

/-- `MultibaggerHunter.__init__`: `self.min_score = 70`. -/
def hunter_min_score : ℚ := 70

/-- The result-collection loop of `scan_market` (src/multibagger.py 54-65):
tickers are processed in input order; a failed analysis is skipped and the
loop continues; a successful one is kept when its composite reaches the
minimum score. -/
def collect_results (analysis : String → Option AnalysisResult)
    (tickers : List String) : List AnalysisResult :=
  tickers.filterMap (fun t =>
    match analysis t with
    | none => none
    | some a => if a.multibagger_score ≥ hunter_min_score then some a else none)

/-- Ascending comparison on the stored composite score. -/
def by_score (a b : AnalysisResult) : Prop :=
  a.multibagger_score ≤ b.multibagger_score

instance : DecidableRel by_score :=
  fun a b => inferInstanceAs (Decidable (a.multibagger_score ≤ b.multibagger_score))

instance : IsTotal AnalysisResult by_score :=
  ⟨fun a b => le_total a.multibagger_score b.multibagger_score⟩

instance : IsTrans AnalysisResult by_score :=
  ⟨fun _ _ _ => le_trans⟩

/-- `MultibaggerHunter.scan_market` (src/multibagger.py 39-76): collect the
retained results, then `df.sort_values('multibagger_score',
ascending=False)`.  pandas implements the descending sort
(`pandas.core.sorting.nargsort`) by reversing the values and the row
index, taking the ascending `argsort`, and reversing the resulting
indexer — the double reversal that makes descending sorts stable; at the
sizes relevant here numpy's default sort runs its insertion-sort path,
which is stable, so the model is reverse, stable ascending sort,
reverse. -/
def scan_market (analysis : String → Option AnalysisResult)
    (tickers : List String) : List AnalysisResult :=
  (((collect_results analysis tickers).reverse.insertionSort by_score)).reverse

/-- The three `continue` guards of `quick_multibagger_scan`
(src/multibagger.py 624-637): a ticker survives iff its market cap lies in
[5e8, 1e10], its revenue growth is truthy and not below 0.15, and its
profit margin is truthy and not below 0 (the negated disjunctions are the
source's `if not x or x < c: continue` guards verbatim). -/
def quick_gate (info : Info) : Prop :=
  let mcap := (info.market_cap).getD 0
  let rev_growth := (info.revenue_growth).getD 0
  let profit_margin := (info.profit_margins).getD 0
  (500000000 ≤ mcap ∧ mcap ≤ 10000000000)
  ∧ ¬(rev_growth = 0 ∨ rev_growth < 0.15)
  ∧ ¬(profit_margin = 0 ∨ profit_margin < 0)

instance (info : Info) : Decidable (quick_gate info) := by
  unfold quick_gate; infer_instance

/-- The coarse tally of `quick_multibagger_scan` (src/multibagger.py
640-646). -/
def quick_tally (info : Info) : ℕ :=
  (if (info.market_cap).getD 0 < 2000000000 then 3 else 0)
  + (if (info.revenue_growth).getD 0 > 0.30 then 3 else 0)
  + (if (info.profit_margins).getD 0 > 0.10 then 2 else 0)

/-- Descending comparison on the tally, ties both ways. -/
def quick_by_tally (a b : String × ℕ) : Prop := b.2 ≤ a.2

instance : DecidableRel quick_by_tally :=
  fun a b => inferInstanceAs (Decidable (b.2 ≤ a.2))

instance : IsTotal (String × ℕ) quick_by_tally :=
  ⟨fun a b => le_total b.2 a.2⟩

instance : IsTrans (String × ℕ) quick_by_tally :=
  ⟨fun _ _ _ h h' => le_trans h' h⟩

/-- The `candidates` list built by the loop of `quick_multibagger_scan`
(src/multibagger.py 616-651): each ticker whose fetch succeeds and which
passes the three gates is paired with its tally; a fetch that raises is
skipped (`except: continue`). -/
def quick_candidates (fetch : String → Option Info)
    (tickers : List String) : List (String × ℕ) :=
  tickers.filterMap (fun t =>
    match fetch t with
    | none => none
    | some info => if quick_gate info then some (t, quick_tally info) else none)

/-- `quick_multibagger_scan` (src/multibagger.py 610-658): gate each
ticker, tally the survivors, `candidates.sort(key=score, reverse=True)` —
Python's `list.sort` is stable also with `reverse=True`, hence the stable
descending sort — and keep the first `top_n` tickers. -/
def quick_multibagger_scan (fetch : String → Option Info)
    (tickers : List String) (top_n : ℕ) : List String :=
  (((quick_candidates fetch tickers).insertionSort quick_by_tally).take top_n).map Prod.fst

/-- `FundamentalAnalyzer._analyze_valuation` (src/pillar1_fundamental.py
79-135): neutral baseline 50, four metric blocks (each guarded by Python
truthiness of the fetched value), clamp to [0,100]. -/
def analyze_valuation (info : Info) : ℚ :=
  let score : ℚ := 50
  let score := score + (match info.trailing_pe with
    | none => 0
    | some pe =>
      if pe ≠ 0 then
        if pe < 15 then 15 else if pe < 25 then 10 else if pe < 35 then 5
        else if pe > 50 then -15 else if pe > 40 then -10 else 0
      else 0)
  let score := score + (match info.price_to_book with
    | none => 0
    | some pb =>
      if pb ≠ 0 then
        if pb < 1 then 15 else if pb < 3 then 10 else if pb < 5 then 5
        else if pb > 10 then -10 else 0
      else 0)
  let score := score + (match info.peg_ratio with
    | none => 0
    | some peg =>
      if peg ≠ 0 then
        if peg < 1 then 15 else if peg < 1.5 then 10 else if peg < 2 then 5
        else if peg > 3 then -10 else 0
      else 0)
  let score := score + (match info.price_to_sales with
    | none => 0
    | some ps =>
      if ps ≠ 0 then
        if ps < 2 then 10 else if ps < 5 then 5 else if ps > 10 then -10 else 0
      else 0)
  max 0 (min 100 score)

/-- `FundamentalAnalyzer._analyze_profitability` (src/pillar1_fundamental.py
137-193). -/
def analyze_profitability (info : Info) : ℚ :=
  let score : ℚ := 50
  let score := score + (match info.return_on_equity with
    | none => 0
    | some roe =>
      if roe ≠ 0 then
        let roe_pct := roe * 100
        if roe_pct > 20 then 20 else if roe_pct > 15 then 15
        else if roe_pct > 10 then 10 else if roe_pct < 5 then -10 else 0
      else 0)
  let score := score + (match info.profit_margins with
    | none => 0
    | some pm =>
      if pm ≠ 0 then
        let margin_pct := pm * 100
        if margin_pct > 20 then 15 else if margin_pct > 15 then 10
        else if margin_pct > 10 then 5 else if margin_pct < 5 then -10 else 0
      else 0)
  let score := score + (match info.operating_margins with
    | none => 0
    | some om =>
      if om ≠ 0 then
        let op_margin_pct := om * 100
        if op_margin_pct > 20 then 10 else if op_margin_pct > 15 then 5
        else if op_margin_pct < 5 then -10 else 0
      else 0)
  let score := score + (match info.return_on_assets with
    | none => 0
    | some roa =>
      if roa ≠ 0 then
        let roa_pct := roa * 100
        if roa_pct > 10 then 10 else if roa_pct > 5 then 5
        else if roa_pct < 2 then -5 else 0
      else 0)
  max 0 (min 100 score)

/-- `FundamentalAnalyzer._analyze_financial_health`
(src/pillar1_fundamental.py 195-246). -/
def analyze_financial_health (info : Info) : ℚ :=
  let score : ℚ := 50
  let score := score + (match info.debt_to_equity with
    | none => 0
    | some de =>
      if de ≠ 0 then
        if de < 30 then 20 else if de < 50 then 15 else if de < 100 then 10
        else if de > 200 then -20 else if de > 150 then -10 else 0
      else 0)
  let score := score + (match info.current_ratio with
    | none => 0
    | some cr =>
      if cr ≠ 0 then
        if cr > 2 then 15 else if cr > 1.5 then 10 else if cr > 1 then 5
        else if cr < 1 then -15 else 0
      else 0)
  let score := score + (match info.quick_ratio with
    | none => 0
    | some qr =>
      if qr ≠ 0 then
        if qr > 1.5 then 10 else if qr > 1 then 5
        else if qr < 0.5 then -10 else 0
      else 0)
  let score := score + (match info.free_cashflow with
    | none => 0
    | some fcf =>
      if fcf ≠ 0 ∧ fcf > 0 then 10 else if fcf ≠ 0 ∧ fcf < 0 then -15 else 0)
  max 0 (min 100 score)

/-- `FundamentalAnalyzer._analyze_growth` (src/pillar1_fundamental.py
248-294). -/
def p1_analyze_growth (info : Info) : ℚ :=
  let score : ℚ := 50
  let score := score + (match info.revenue_growth with
    | none => 0
    | some rg =>
      if rg ≠ 0 then
        let growth_pct := rg * 100
        if growth_pct > 20 then 20 else if growth_pct > 15 then 15
        else if growth_pct > 10 then 10 else if growth_pct > 5 then 5
        else if growth_pct < 0 then -15 else 0
      else 0)
  let score := score + (match info.earnings_growth with
    | none => 0
    | some eg =>
      if eg ≠ 0 then
        let eg_pct := eg * 100
        if eg_pct > 25 then 20 else if eg_pct > 15 then 15
        else if eg_pct > 10 then 10 else if eg_pct < 0 then -15 else 0
      else 0)
  let score := score + (match info.earnings_quarterly_growth with
    | none => 0
    | some eq_g =>
      if eq_g ≠ 0 then
        if eq_g > 0.20 then 10 else if eq_g > 0.10 then 5
        else if eq_g < 0 then -10 else 0
      else 0)
  max 0 (min 100 score)

/-- `FundamentalAnalyzer._analyze_dividends` (src/pillar1_fundamental.py
296-330); an absent (or zero) dividend yield is read as a growth stock and
adds 5. -/
def analyze_dividends (info : Info) : ℚ :=
  let score : ℚ := 50
  let score := score + (match info.dividend_yield with
    | none => 5
    | some dy =>
      if dy ≠ 0 then
        let yield_pct := dy * 100
        if yield_pct > 4 then 20 else if yield_pct > 3 then 15
        else if yield_pct > 2 then 10 else if yield_pct > 1 then 5 else 0
      else 5)
  let score := score + (match info.payout_ratio with
    | none => 0
    | some payout =>
      if payout ≠ 0 then
        if 0.3 < payout ∧ payout < 0.6 then 15
        else if (0.2 < payout ∧ payout ≤ 0.3) ∨ (0.6 ≤ payout ∧ payout < 0.8) then 10
        else if payout ≥ 1 then -20 else 0
      else 0)
  max 0 (min 100 score)

/-- Indicator values `TechnicalAnalyzer._analyze_trend` reads at the last
row of its DataFrame: last close, the three simple moving averages, and
the close 20 rows back. -/
structure TrendInputs where
  current_price : ℚ
  sma_20 : ℚ
  sma_50 : ℚ
  sma_200 : ℚ
  close_20_ago : ℚ
  deriving Repr, DecidableEq

/-- `TechnicalAnalyzer._analyze_trend` (src/pillar2_technical.py 125-171). -/
def analyze_trend (t : TrendInputs) : ℚ :=
  let score : ℚ := 50
  let score := score + (if t.current_price > t.sma_20 then 10 else -10)
  let score := score + (if t.current_price > t.sma_50 then 15 else -15)
  let score := score + (if t.current_price > t.sma_200 then 20 else -20)
  let score := score +
    (if t.sma_20 > t.sma_50 ∧ t.sma_50 > t.sma_200 then 15
     else if t.sma_20 < t.sma_50 ∧ t.sma_50 < t.sma_200 then -15 else 0)
  let returns_20d := (t.current_price - t.close_20_ago) / t.close_20_ago
  let score := score +
    (if returns_20d > 0.10 then 10 else if returns_20d > 0.05 then 5
     else if returns_20d < -0.10 then -10 else if returns_20d < -0.05 then -5
     else 0)
  max 0 (min 100 score)

/-- Indicator values `TechnicalAnalyzer._analyze_momentum` reads: last
RSI(14), last MACD, signal and histogram values, and the previous
histogram value. -/
structure P2MomentumInputs where
  rsi : ℚ
  macd : ℚ
  macd_signal : ℚ
  macd_hist : ℚ
  macd_hist_prev : ℚ
  deriving Repr, DecidableEq

/-- `TechnicalAnalyzer._analyze_momentum` (src/pillar2_technical.py
173-215). -/
def p2_analyze_momentum (m : P2MomentumInputs) : ℚ :=
  let score : ℚ := 50
  let score := score +
    (if 40 < m.rsi ∧ m.rsi < 60 then 10
     else if 30 < m.rsi ∧ m.rsi ≤ 40 then 15
     else if m.rsi ≤ 30 then 20
     else if 60 ≤ m.rsi ∧ m.rsi < 70 then 5
     else -10)
  let score := score + (if m.macd > m.macd_signal then 15 else -10)
  let score := score +
    (if m.macd_hist > 0 ∧ m.macd_hist_prev < 0 then 15
     else if m.macd_hist < 0 ∧ m.macd_hist_prev > 0 then -15 else 0)
  let score := score + (if m.macd_hist > m.macd_hist_prev then 5 else -5)
  max 0 (min 100 score)

/-- Indicator values `TechnicalAnalyzer._analyze_volatility` reads: last
close, the Bollinger bands, and the annualized close-to-close volatility. -/
structure VolatilityInputs where
  current_price : ℚ
  bb_upper : ℚ
  bb_lower : ℚ
  bb_middle : ℚ
  volatility : ℚ
  deriving Repr, DecidableEq

/-- `TechnicalAnalyzer._analyze_volatility` (src/pillar2_technical.py
217-252). -/
def analyze_volatility (v : VolatilityInputs) : ℚ :=
  let score : ℚ := 50
  let bb_width := v.bb_upper - v.bb_lower
  let bb_position := (v.current_price - v.bb_lower) / bb_width
  let score := score +
    (if 0.3 < bb_position ∧ bb_position < 0.7 then 15
     else if bb_position ≤ 0.2 then 20
     else if bb_position ≥ 0.8 then -10 else 0)
  let score := score +
    (if v.volatility < 0.20 then 10 else if v.volatility < 0.30 then 5
     else if v.volatility > 0.50 then -10 else 0)
  max 0 (min 100 score)

/-- Values `TechnicalAnalyzer._analyze_volume` reads: last volume, its
20-day moving average, the last close-to-close change, and the 10- and
50-day mean volumes. -/
structure VolumeInputs where
  current_volume : ℚ
  volume_sma : ℚ
  price_change : ℚ
  avg_volume_10d : ℚ
  avg_volume_50d : ℚ
  deriving Repr, DecidableEq

/-- `TechnicalAnalyzer._analyze_volume` (src/pillar2_technical.py 254-288). -/
def analyze_volume (v : VolumeInputs) : ℚ :=
  let score : ℚ := 50
  let volume_ratio := v.current_volume / v.volume_sma
  let score := score +
    (if v.price_change > 0 ∧ volume_ratio > 1.2 then 20
     else if v.price_change > 0 ∧ volume_ratio > 1 then 10
     else if v.price_change < 0 ∧ volume_ratio > 1.2 then -20
     else if v.price_change < 0 ∧ volume_ratio > 1 then -10 else 0)
  let score := score +
    (if v.avg_volume_10d > v.avg_volume_50d * 1.2 then 10
     else if v.avg_volume_10d < v.avg_volume_50d * 0.8 then -5 else 0)
  max 0 (min 100 score)

/-- Values `TechnicalAnalyzer._analyze_patterns` reads: last close, the
60-day high and low of the close, and the last and 10-rows-back values of
the High and Low columns. -/
structure PatternInputs where
  current_price : ℚ
  recent_high : ℚ
  recent_low : ℚ
  high_last : ℚ
  high_10_ago : ℚ
  low_last : ℚ
  low_10_ago : ℚ
  deriving Repr, DecidableEq

/-- `TechnicalAnalyzer._analyze_patterns` (src/pillar2_technical.py
290-325). -/
def analyze_patterns (p : PatternInputs) : ℚ :=
  let score : ℚ := 50
  let price_range := p.recent_high - p.recent_low
  let score := score +
    (if price_range > 0 then
      let position := (p.current_price - p.recent_low) / price_range
      if position < 0.3 then 15 else if position > 0.7 then -10 else 0
     else 0)
  let score := score +
    (if p.high_last > p.high_10_ago ∧ p.low_last > p.low_10_ago then 15
     else if p.high_last < p.high_10_ago ∧ p.low_last < p.low_10_ago then -15
     else 0)
  max 0 (min 100 score)

/-- `SentimentAnalyzer._analyze_analyst_recommendations`
(src/pillar3_sentiment.py 72-153), reduced to its score: the inputs are
the buy/hold/sell counts tallied from the recent recommendation grades
(all zero when the provider returns no rows, which lands on the neutral
50 exactly as the source's fall-through return does). -/
def analyze_analyst_recommendations (buy_count hold_count sell_count : ℕ) : ℚ :=
  let total := buy_count + hold_count + sell_count
  if 0 < total then
    let buy_r : ℚ := (buy_count : ℚ) / (total : ℚ)
    let sell_r : ℚ := (sell_count : ℚ) / (total : ℚ)
    if buy_r > 0.7 then 85
    else if buy_r > 0.5 then 70
    else if sell_r > 0.5 then 30
    else if sell_r > 0.3 then 40
    else 55
  else 50

/-- `SentimentAnalyzer._analyze_news_sentiment` (src/pillar3_sentiment.py
155-211), reduced to its score: `has_news` is whether the provider
returned any articles; the counts are the keyword-polarity tallies over
the first ten headlines. -/
def analyze_news_sentiment (has_news : Bool) (positive_count negative_count : ℕ) : ℚ :=
  if has_news then
    let total := positive_count + negative_count
    let score : ℚ :=
      if 0 < total then 50 + ((positive_count : ℚ) - (negative_count : ℚ)) / (total : ℚ) * 40
      else 50
    max 10 (min 90 score)
  else 50

/-- `SentimentAnalyzer._analyze_institutional_holdings`
(src/pillar3_sentiment.py 213-256), reduced to its score: `has_data` is
whether both holder tables were non-empty; `inst_pct` is the parsed
institutional-ownership percentage. -/
def analyze_institutional_holdings (has_data : Bool) (inst_pct : ℚ) : ℚ :=
  if has_data then
    if inst_pct > 80 then 75
    else if inst_pct > 60 then 65
    else if inst_pct > 40 then 55
    else if inst_pct < 20 then 40
    else 50
  else 50

/-- `SentimentAnalyzer._analyze_insider_activity`
(src/pillar3_sentiment.py 258-309), reduced to its score: the inputs are
the buy/sell counts over the recent insider transactions. -/
def analyze_insider_activity (has_data : Bool) (buys sells : ℕ) : ℚ :=
  if has_data then
    if buys > sells * 2 then 70
    else if buys > sells then 60
    else if sells > buys * 3 then 40
    else if sells > buys then 45
    else 50
  else 50

/-! ## Helper lemmas -/

theorem clamp_0_100_bound (s : ℚ) : 0 ≤ max 0 (min 100 s) ∧ max 0 (min 100 s) ≤ 100 :=
  ⟨le_max_left 0 _, max_le (by norm_num) (min_le_left 100 s)⟩

theorem clamp_10_90_bound (s : ℚ) : 0 ≤ max 10 (min 90 s) ∧ max 10 (min 90 s) ≤ 100 :=
  ⟨le_trans (by norm_num) (le_max_left 10 _),
   max_le (by norm_num) (le_trans (min_le_left 90 s) (by norm_num))⟩

theorem min_100_bound {s : ℚ} (h : 0 ≤ s) : 0 ≤ min s 100 ∧ min s 100 ≤ 100 :=
  ⟨le_min h (by norm_num), min_le_right s 100⟩

theorem growth_rev_points_nonneg (g : ℚ) : 0 ≤ growth_rev_points g := by
  unfold growth_rev_points; split_ifs <;> norm_num

theorem growth_earnings_points_nonneg (g : ℚ) : 0 ≤ growth_earnings_points g := by
  unfold growth_earnings_points; split_ifs <;> norm_num

theorem growth_quarterly_points_nonneg (g : ℚ) : 0 ≤ growth_quarterly_points g := by
  unfold growth_quarterly_points; split_ifs <;> norm_num

theorem valuation_peg_points_nonneg (o : Option ℚ) : 0 ≤ valuation_peg_points o := by
  cases o <;> simp only [valuation_peg_points] <;> first | (split_ifs <;> norm_num) | norm_num

theorem valuation_pe_points_nonneg (o : Option ℚ) : 0 ≤ valuation_pe_points o := by
  cases o <;> simp only [valuation_pe_points] <;> first | (split_ifs <;> norm_num) | norm_num

theorem valuation_pb_points_nonneg (o : Option ℚ) : 0 ≤ valuation_pb_points o := by
  cases o <;> simp only [valuation_pb_points] <;> first | (split_ifs <;> norm_num) | norm_num

theorem quality_margin_points_nonneg (x : ℚ) : 0 ≤ quality_margin_points x := by
  unfold quality_margin_points; split_ifs <;> norm_num

theorem quality_roe_points_nonneg (x : ℚ) : 0 ≤ quality_roe_points x := by
  unfold quality_roe_points; split_ifs <;> norm_num

theorem quality_debt_points_nonneg (x : ℚ) : 0 ≤ quality_debt_points x := by
  unfold quality_debt_points; split_ifs <;> norm_num

theorem quality_current_points_nonneg (x : ℚ) : 0 ≤ quality_current_points x := by
  unfold quality_current_points; split_ifs <;> norm_num

theorem quality_ocf_points_nonneg (x : ℚ) : 0 ≤ quality_ocf_points x := by
  unfold quality_ocf_points; split_ifs <;> norm_num

theorem catalyst_volume_points_nonneg (a r : ℚ) : 0 ≤ catalyst_volume_points a r := by
  unfold catalyst_volume_points
  dsimp only []
  split_ifs <;> norm_num

theorem catalyst_insider_points_nonneg (x : ℚ) : 0 ≤ catalyst_insider_points x := by
  unfold catalyst_insider_points; split_ifs <;> norm_num

theorem catalyst_institution_points_nonneg (x : ℚ) : 0 ≤ catalyst_institution_points x := by
  unfold catalyst_institution_points; split_ifs <;> norm_num

theorem catalyst_growth_points_nonneg (x : ℚ) : 0 ≤ catalyst_growth_points x := by
  unfold catalyst_growth_points; split_ifs <;> norm_num

theorem indonesian_themes_nonneg (s : String) : 0 ≤ indonesian_themes s := by
  unfold indonesian_themes; split_ifs <;> norm_num

theorem momentum_6m_points_nonneg (h : HistStats) : 0 ≤ momentum_6m_points h := by
  unfold momentum_6m_points
  dsimp only []
  split_ifs <;> norm_num

theorem momentum_3m_points_nonneg (h : HistStats) : 0 ≤ momentum_3m_points h := by
  unfold momentum_3m_points
  dsimp only []
  split_ifs <;> norm_num

theorem momentum_rsi_points_nonneg (o : Option ℚ) : 0 ≤ momentum_rsi_points o := by
  cases o <;> simp only [momentum_rsi_points] <;> first | (split_ifs <;> norm_num) | norm_num

theorem momentum_ma_points_nonneg (h : HistStats) : 0 ≤ momentum_ma_points h := by
  unfold momentum_ma_points
  have h1 : (0:ℚ) ≤ (if h.current_price > h.ma50 then (15:ℚ) else 0) := by
    split_ifs <;> norm_num
  have h2 : (0:ℚ) ≤ (match h.ma200 with
      | none => (0:ℚ)
      | some m => if m ≠ 0 ∧ h.current_price > m then 10 else 0) := by
    cases h.ma200 <;> dsimp only [] <;> first | (split_ifs <;> norm_num) | norm_num
  exact add_nonneg h1 h2

theorem score_ticker_ticker (fetch : String → Option TickerData) (t : String)
    (r : AnalysisResult) (h : score_ticker fetch t = some r) : r.ticker = t := by
  unfold score_ticker at h
  cases hf : fetch t with
  | none =>
    simp only [hf] at h
    exact Option.noConfusion h
  | some d =>
    simp only [hf] at h
    unfold analyze_multibagger_potential at h
    split at h
    · exact absurd h (by simp)
    · simp only [Option.some.injEq] at h
      rw [← h]

theorem collect_results_skip (analysis : String → Option AnalysisResult) (t : String)
    (h : analysis t = none) (xs ys : List String) :
    collect_results analysis (xs ++ t :: ys) = collect_results analysis (xs ++ ys) := by
  unfold collect_results
  simp [List.filterMap_append, List.filterMap_cons, h]

theorem mem_collect_results {analysis : String → Option AnalysisResult}
    {tickers : List String} {a : AnalysisResult}
    (h : a ∈ collect_results analysis tickers) : ∃ t ∈ tickers, analysis t = some a := by
  unfold collect_results at h
  rw [List.mem_filterMap] at h
  obtain ⟨t, ht, hfa⟩ := h
  refine ⟨t, ht, ?_⟩
  cases hat : analysis t with
  | none =>
    simp only [hat] at hfa
    exact hfa
  | some b =>
    simp only [hat] at hfa
    by_cases hb : b.multibagger_score ≥ hunter_min_score
    · rw [if_pos hb] at hfa
      simp only [Option.some.injEq] at hfa
      rw [← hfa]
    · rw [if_neg hb] at hfa
      exact absurd hfa (by simp)

theorem mem_scan_market {analysis : String → Option AnalysisResult}
    {tickers : List String} {a : AnalysisResult}
    (h : a ∈ scan_market analysis tickers) : ∃ t ∈ tickers, analysis t = some a := by
  unfold scan_market at h
  rw [List.mem_reverse] at h
  have h2 := (List.perm_insertionSort by_score _).mem_iff.mp h
  rw [List.mem_reverse] at h2
  exact mem_collect_results h2

theorem quick_candidates_sorted (fetch : String → Option Info) (tickers : List String) :
    ((quick_candidates fetch tickers).insertionSort quick_by_tally).Chain'
      (fun a b => b.2 ≤ a.2) := by
  apply List.Pairwise.chain'
  exact List.sorted_insertionSort quick_by_tally (quick_candidates fetch tickers)

/-! ## A concrete fetched dataset used to instantiate several claims -/

/-- A concrete `info` mapping on which every multibagger component scorer
is easy to evaluate by hand. -/
def cex_info : Info :=
  { market_cap := some 700000000
    trailing_pe := some 10
    peg_ratio := some 0.4
    price_to_book := some 2
    revenue_growth := some 0.4
    earnings_growth := some 0.5
    revenue_quarterly_growth := some 0.25
    profit_margins := some 0.25
    return_on_equity := some 0.3
    debt_to_equity := some 20
    current_ratio := some 2.5
    operating_cashflow := some 5
    held_percent_insiders := some 0.15
    held_percent_institutions := some 0.6 }

/-- A concrete price-history extract: 252 rows, strong momentum. -/
def cex_hist : HistStats :=
  { len := 252, current_price := 100, price_6m_ago := 50, price_3m_ago := 75
    rsi := some 50, ma50 := 90, ma200 := some 80 }

/-- The record `analyze_multibagger_potential` produces from `cex_data`. -/
def cex_result (t : String) : AnalysisResult :=
  { ticker := t, sector := "Unknown", multibagger_score := 91, size_score := 100
    growth_score := 100, valuation_score := 100, quality_score := 100
    catalyst_score := 40, momentum_score := 100, catalysts := [], num_catalysts := 0
    return_potential := "100-200% (2-3 bagger)", market_cap := 700000000 }

theorem indonesian_themes_empty : indonesian_themes "" = 0 := by
  simp [indonesian_themes]

theorem cex_component_eval :
    calculate_size_score cex_info = 100
  ∧ calculate_growth_score cex_info = 100
  ∧ calculate_valuation_score cex_info = 100
  ∧ calculate_quality_score cex_info = 100
  ∧ calculate_catalyst_score cex_info 100 350 = 40
  ∧ calculate_momentum_score cex_hist = 100 := by
  refine ⟨?_, ?_, ?_, ?_, ?_, ?_⟩ <;>
    norm_num [cex_info, cex_hist, calculate_size_score, calculate_growth_score,
      growth_rev_points, growth_earnings_points, growth_quarterly_points,
      calculate_valuation_score, valuation_peg_points, valuation_pe_points,
      valuation_pb_points, calculate_quality_score, quality_margin_points,
      quality_roe_points, quality_debt_points, quality_current_points,
      quality_ocf_points, calculate_catalyst_score, catalyst_volume_points,
      indonesian_themes_empty, catalyst_insider_points, catalyst_institution_points,
      catalyst_growth_points, calculate_momentum_score, momentum_6m_points,
      momentum_3m_points, momentum_rsi_points, momentum_ma_points]

theorem cex_analyze_eval (t : String) :
    analyze_multibagger_potential t cex_info cex_hist 100 350 [] = some (cex_result t) := by
  have h := cex_component_eval
  unfold analyze_multibagger_potential
  rw [if_neg (by norm_num [cex_hist])]
  simp only [h.1, h.2.1, h.2.2.1, h.2.2.2.1, h.2.2.2.2.1, h.2.2.2.2.2]
  norm_num [cex_result, cex_info, py_round2, py_round_int, estimate_return_potential]

/-- Reduction of the growth scorer to its revenue block when the other two
growth attributes are absent. -/
theorem growth_rev_simp (g : ℚ) :
    calculate_growth_score { revenue_growth := some g } = min (growth_rev_points g) 100 := by
  have h1 : growth_earnings_points 0 = 0 := by norm_num [growth_earnings_points]
  have h2 : growth_quarterly_points 0 = 0 := by norm_num [growth_quarterly_points]
  simp [calculate_growth_score, h1, h2]

/-! ## Claim theorems -/

/-- C1 (counterexample): with PEG ratio, trailing P/E and price-to-book all
absent, `MultibaggerHunter._calculate_valuation_score` returns 20 — the
PEG-absent neutral contribution — and not the claimed baseline of 50. -/
theorem C1_counterexample :
    calculate_valuation_score {} = 20 ∧ calculate_valuation_score {} ≠ 50 := by
  norm_num [calculate_valuation_score, valuation_peg_points, valuation_pe_points,
    valuation_pb_points]

/-- C1 (amended): for every snapshot in which PEG ratio, trailing P/E and
price-to-book are all absent, the multibagger valuation scorer returns 20:
the absent-PEG branch contributes its 20-point neutral value and the absent
P/E and P/B blocks contribute nothing (the 50-point neutral baseline belongs
to the pillar-1 valuation scorer, not to this one). -/
theorem C1_valuation_all_absent (info : Info)
    (hpeg : info.peg_ratio = none) (hpe : info.trailing_pe = none)
    (hpb : info.price_to_book = none) :
    calculate_valuation_score info = 20 := by
  norm_num [calculate_valuation_score, hpeg, hpe, hpb, valuation_peg_points,
    valuation_pe_points, valuation_pb_points]

/-- C1 witness: the amended theorem evaluated at the all-absent snapshot. -/
theorem C1_witness : calculate_valuation_score {} = 20 :=
  C1_valuation_all_absent {} rfl rfl rfl

/-- C3 (counterexample): at composite score 72 with 0 catalysts,
`_estimate_return_potential` returns the "100-200% (2-3 bagger)" bucket,
not the lowest bucket "50-100% (modest multibagger)" the claim names. -/
theorem C3_counterexample :
    estimate_return_potential 72 0 = "100-200% (2-3 bagger)"
  ∧ estimate_return_potential 72 0 ≠ "50-100% (modest multibagger)" := by
  refine ⟨by norm_num [estimate_return_potential], ?_⟩
  norm_num [estimate_return_potential]
  decide

/-- C3 (amended): the return-potential bucket is a joint function of score
and catalyst count; (90, 5) yields the top bucket, while (72, 0) yields the
"100-200% (2-3 bagger)" bucket — the `score ≥ 70` rung needs no catalysts,
so the lowest bucket is reached only below score 70. -/
theorem C3_return_buckets :
    estimate_return_potential 90 5 = "500-1000%+ (10-bagger potential)"
  ∧ estimate_return_potential 72 0 = "100-200% (2-3 bagger)" := by
  constructor <;> norm_num [estimate_return_potential]

/-- C4 (counterexample): a present revenue-growth value of exactly 0
contributes 0 points to `_calculate_growth_score`, not the claimed 5 —
Python's `if rev_growth:` treats 0.0 like an absent value. -/
theorem C4_counterexample :
    calculate_growth_score { revenue_growth := some 0 } = 0
  ∧ calculate_growth_score { revenue_growth := some 0 } ≠ 5 := by
  norm_num [calculate_growth_score, growth_rev_points, growth_earnings_points,
    growth_quarterly_points]

/-- C4 (amended): for a present revenue growth rate `g` the revenue block
of the growth scorer contributes 35 points for g > 50%, 40 for
30% < g ≤ 50%, 35 for 20% < g ≤ 30%, 20 for 10% < g ≤ 20%, and 5 otherwise
provided g ≠ 0; a present value of exactly 0% is indistinguishable from an
absent one and contributes 0 points, not 5. -/
theorem C4_growth_revenue_ladder (g : ℚ) :
    (0.50 < g → calculate_growth_score { revenue_growth := some g } = 35)
  ∧ (0.30 < g ∧ g ≤ 0.50 → calculate_growth_score { revenue_growth := some g } = 40)
  ∧ (0.20 < g ∧ g ≤ 0.30 → calculate_growth_score { revenue_growth := some g } = 35)
  ∧ (0.10 < g ∧ g ≤ 0.20 → calculate_growth_score { revenue_growth := some g } = 20)
  ∧ (g ≤ 0.10 ∧ g ≠ 0 → calculate_growth_score { revenue_growth := some g } = 5)
  ∧ calculate_growth_score { revenue_growth := some 0 } = 0 := by
  refine ⟨?_, ?_, ?_, ?_, ?_, ?_⟩
  · intro h
    rw [growth_rev_simp]
    unfold growth_rev_points
    rw [if_pos (ne_of_gt (lt_trans (by norm_num) h)), if_pos h]
    norm_num
  · rintro ⟨h1, h2⟩
    rw [growth_rev_simp]
    unfold growth_rev_points
    rw [if_pos (ne_of_gt (lt_trans (by norm_num) h1)), if_neg (not_lt.mpr h2),
      if_pos h1]
    norm_num
  · rintro ⟨h1, h2⟩
    rw [growth_rev_simp]
    unfold growth_rev_points
    rw [if_pos (ne_of_gt (lt_trans (by norm_num) h1)),
      if_neg (not_lt.mpr (le_trans h2 (by norm_num))), if_neg (not_lt.mpr h2),
      if_pos h1]
    norm_num
  · rintro ⟨h1, h2⟩
    rw [growth_rev_simp]
    unfold growth_rev_points
    rw [if_pos (ne_of_gt (lt_trans (by norm_num) h1)),
      if_neg (not_lt.mpr (le_trans h2 (by norm_num))),
      if_neg (not_lt.mpr (le_trans h2 (by norm_num))), if_neg (not_lt.mpr h2),
      if_pos h1]
    norm_num
  · rintro ⟨h1, h2⟩
    rw [growth_rev_simp]
    unfold growth_rev_points
    rw [if_pos h2, if_neg (not_lt.mpr (le_trans h1 (by norm_num))),
      if_neg (not_lt.mpr (le_trans h1 (by norm_num))),
      if_neg (not_lt.mpr (le_trans h1 (by norm_num))), if_neg (not_lt.mpr h1)]
    norm_num
  · rw [growth_rev_simp]
    norm_num [growth_rev_points]

/-- C4 witness: the amended theorem's 30-50% band evaluated at g = 0.4. -/
theorem C4_witness : calculate_growth_score { revenue_growth := some 0.4 } = 40 :=
  (C4_growth_revenue_ladder 0.4).2.1 ⟨by norm_num, by norm_num⟩

/-- C7: the size scorer maps 0.7B to 100, 2B to 85, 4B to 70, 7B to 50,
15B to 30, 0.3B to 40, and a zero or absent market cap to 0, per the
market-cap band ladder. -/
theorem C7_size_score_bands :
    calculate_size_score { market_cap := some 700000000 } = 100
  ∧ calculate_size_score { market_cap := some 2000000000 } = 85
  ∧ calculate_size_score { market_cap := some 4000000000 } = 70
  ∧ calculate_size_score { market_cap := some 7000000000 } = 50
  ∧ calculate_size_score { market_cap := some 15000000000 } = 30
  ∧ calculate_size_score { market_cap := some 300000000 } = 40
  ∧ calculate_size_score { market_cap := some 0 } = 0
  ∧ calculate_size_score {} = 0 := by
  refine ⟨?_, ?_, ?_, ?_, ?_, ?_, ?_, ?_⟩ <;> norm_num [calculate_size_score]

/-- C8: whenever `analyze_multibagger_potential` produces a record, its
composite score is exactly the fixed-weight sum
size×0.20 + growth×0.25 + valuation×0.15 + quality×0.15 + catalyst×0.15 +
momentum×0.10 of the six component scorers (stored rounded to two
decimals, with no clamp after the weighted sum), and the same unclamped
sum is what feeds the return-potential bucket. -/
theorem C8_composite_formula (ticker : String) (info : Info) (hist : HistStats)
    (avg_volume recent_volume : ℚ) (catalysts : List String) (r : AnalysisResult)
    (h : analyze_multibagger_potential ticker info hist avg_volume recent_volume
      catalysts = some r) :
    r.multibagger_score = py_round2
      (calculate_size_score info * 0.20 + calculate_growth_score info * 0.25
        + calculate_valuation_score info * 0.15 + calculate_quality_score info * 0.15
        + calculate_catalyst_score info avg_volume recent_volume * 0.15
        + calculate_momentum_score hist * 0.10)
  ∧ r.return_potential = estimate_return_potential
      (calculate_size_score info * 0.20 + calculate_growth_score info * 0.25
        + calculate_valuation_score info * 0.15 + calculate_quality_score info * 0.15
        + calculate_catalyst_score info avg_volume recent_volume * 0.15
        + calculate_momentum_score hist * 0.10) catalysts.length := by
  unfold analyze_multibagger_potential at h
  split at h
  · exact absurd h (by simp)
  · simp only [Option.some.injEq] at h
    subst h
    exact ⟨rfl, rfl⟩

/-- C8 witness: the formula evaluated on the concrete dataset. -/
theorem C8_witness :
    (cex_result "AAA").multibagger_score = py_round2
      (calculate_size_score cex_info * 0.20 + calculate_growth_score cex_info * 0.25
        + calculate_valuation_score cex_info * 0.15 + calculate_quality_score cex_info * 0.15
        + calculate_catalyst_score cex_info 100 350 * 0.15
        + calculate_momentum_score cex_hist * 0.10) :=
  (C8_composite_formula "AAA" cex_info cex_hist 100 350 [] (cex_result "AAA")
    (cex_analyze_eval "AAA")).1

/-- C9: a ticker whose fetch-and-analyze step fails contributes nothing to
`scan_market` — the scan of a list containing it equals the scan of the
list without it (every later ticker is still processed), and its name is
absent from the output.  The hypothesis `score_ticker fetch t = none`
covers a fetch that raises (`fetch t = none`) as well as the analyzer's
internal failure returns. -/
theorem C9_failed_ticker_skipped (fetch : String → Option TickerData)
    (xs ys : List String) (t : String) (h : score_ticker fetch t = none) :
    scan_market (score_ticker fetch) (xs ++ t :: ys)
      = scan_market (score_ticker fetch) (xs ++ ys)
  ∧ t ∉ (scan_market (score_ticker fetch) (xs ++ t :: ys)).map AnalysisResult.ticker := by
  constructor
  · unfold scan_market
    rw [collect_results_skip _ _ h]
  · intro hmem
    rw [List.mem_map] at hmem
    obtain ⟨a, ha, hat⟩ := hmem
    obtain ⟨s, _, hsa⟩ := mem_scan_market ha
    have hts : a.ticker = s := score_ticker_ticker fetch s a hsa
    rw [hts] at hat
    subst hat
    rw [h] at hsa
    exact Option.noConfusion hsa

/-- A data source for which every fetch raises. -/
def c9_fetch : String → Option TickerData := fun _ => none

/-- C9 witness: the theorem instantiated at a concrete failing ticker. -/
theorem C9_witness :
    scan_market (score_ticker c9_fetch) ([] ++ "X" :: [])
      = scan_market (score_ticker c9_fetch) ([] ++ [])
  ∧ "X" ∉ (scan_market (score_ticker c9_fetch) ([] ++ "X" :: [])).map AnalysisResult.ticker :=
  C9_failed_ticker_skipped c9_fetch [] [] "X" rfl

/-- C10: when the fetched price history is empty or shorter than 50 rows,
`analyze_multibagger_potential` returns `none` rather than a partially
scored record, and such a ticker never appears in `scan_market` output. -/
theorem C10_short_history_none (ticker : String) (info : Info) (hist : HistStats)
    (avg_volume recent_volume : ℚ) (catalysts : List String)
    (h : hist.len = 0 ∨ hist.len < 50) :
    analyze_multibagger_potential ticker info hist avg_volume recent_volume
      catalysts = none
  ∧ ∀ (fetch : String → Option TickerData) (tickers : List String),
      fetch ticker = some ⟨info, hist, avg_volume, recent_volume, catalysts⟩ →
      ticker ∉ (scan_market (score_ticker fetch) tickers).map AnalysisResult.ticker := by
  have hnone : analyze_multibagger_potential ticker info hist avg_volume
      recent_volume catalysts = none := by
    unfold analyze_multibagger_potential
    rw [if_pos h]
  refine ⟨hnone, ?_⟩
  intro fetch tickers hf hmem
  rw [List.mem_map] at hmem
  obtain ⟨a, ha, hat⟩ := hmem
  obtain ⟨s, _, hsa⟩ := mem_scan_market ha
  have hts : a.ticker = s := score_ticker_ticker fetch s a hsa
  rw [hts] at hat
  subst hat
  unfold score_ticker at hsa
  simp only [hf] at hsa
  rw [hnone] at hsa
  exact Option.noConfusion hsa

/-- An empty price-history extract. -/
def c10_hist : HistStats :=
  { len := 0, current_price := 0, price_6m_ago := 0, price_3m_ago := 0
    rsi := none, ma50 := 0, ma200 := none }

/-- C10 witness: the theorem instantiated at an empty history. -/
theorem C10_witness :
    analyze_multibagger_potential "X" {} c10_hist 0 0 [] = none :=
  (C10_short_history_none "X" {} c10_hist 0 0 [] (Or.inl rfl)).1

/-- C6: every component scorer in the system — the six multibagger
scorers, the five fundamental-pillar sub-scorers, the five
technical-pillar sub-scorers and the four sentiment sub-scorers — returns
a score in [0, 100] on every input. -/
theorem C6_all_scorers_bounded :
    (∀ info : Info, 0 ≤ calculate_size_score info ∧ calculate_size_score info ≤ 100)
  ∧ (∀ info : Info, 0 ≤ calculate_growth_score info ∧ calculate_growth_score info ≤ 100)
  ∧ (∀ info : Info, 0 ≤ calculate_valuation_score info ∧ calculate_valuation_score info ≤ 100)
  ∧ (∀ info : Info, 0 ≤ calculate_quality_score info ∧ calculate_quality_score info ≤ 100)
  ∧ (∀ (info : Info) (av rv : ℚ),
      0 ≤ calculate_catalyst_score info av rv ∧ calculate_catalyst_score info av rv ≤ 100)
  ∧ (∀ hs : HistStats, 0 ≤ calculate_momentum_score hs ∧ calculate_momentum_score hs ≤ 100)
  ∧ (∀ info : Info, 0 ≤ analyze_valuation info ∧ analyze_valuation info ≤ 100)
  ∧ (∀ info : Info, 0 ≤ analyze_profitability info ∧ analyze_profitability info ≤ 100)
  ∧ (∀ info : Info, 0 ≤ analyze_financial_health info ∧ analyze_financial_health info ≤ 100)
  ∧ (∀ info : Info, 0 ≤ p1_analyze_growth info ∧ p1_analyze_growth info ≤ 100)
  ∧ (∀ info : Info, 0 ≤ analyze_dividends info ∧ analyze_dividends info ≤ 100)
  ∧ (∀ t : TrendInputs, 0 ≤ analyze_trend t ∧ analyze_trend t ≤ 100)
  ∧ (∀ m : P2MomentumInputs, 0 ≤ p2_analyze_momentum m ∧ p2_analyze_momentum m ≤ 100)
  ∧ (∀ v : VolatilityInputs, 0 ≤ analyze_volatility v ∧ analyze_volatility v ≤ 100)
  ∧ (∀ v : VolumeInputs, 0 ≤ analyze_volume v ∧ analyze_volume v ≤ 100)
  ∧ (∀ p : PatternInputs, 0 ≤ analyze_patterns p ∧ analyze_patterns p ≤ 100)
  ∧ (∀ b h s : ℕ, 0 ≤ analyze_analyst_recommendations b h s
      ∧ analyze_analyst_recommendations b h s ≤ 100)
  ∧ (∀ (hn : Bool) (pc nc : ℕ), 0 ≤ analyze_news_sentiment hn pc nc
      ∧ analyze_news_sentiment hn pc nc ≤ 100)
  ∧ (∀ (hd : Bool) (ip : ℚ), 0 ≤ analyze_institutional_holdings hd ip
      ∧ analyze_institutional_holdings hd ip ≤ 100)
  ∧ (∀ (hd : Bool) (b s : ℕ), 0 ≤ analyze_insider_activity hd b s
      ∧ analyze_insider_activity hd b s ≤ 100) := by
  refine ⟨?_, ?_, ?_, ?_, ?_, ?_, ?_, ?_, ?_, ?_, ?_, ?_, ?_, ?_, ?_, ?_, ?_, ?_, ?_, ?_⟩
  · intro info
    unfold calculate_size_score
    dsimp only []
    constructor <;> (split_ifs <;> norm_num)
  · intro info
    unfold calculate_growth_score
    exact min_100_bound (add_nonneg (add_nonneg (growth_rev_points_nonneg _)
      (growth_earnings_points_nonneg _)) (growth_quarterly_points_nonneg _))
  · intro info
    unfold calculate_valuation_score
    exact min_100_bound (add_nonneg (add_nonneg (valuation_peg_points_nonneg _)
      (valuation_pe_points_nonneg _)) (valuation_pb_points_nonneg _))
  · intro info
    unfold calculate_quality_score
    exact min_100_bound (add_nonneg (add_nonneg (add_nonneg (add_nonneg
      (quality_margin_points_nonneg _) (quality_roe_points_nonneg _))
      (quality_debt_points_nonneg _)) (quality_current_points_nonneg _))
      (quality_ocf_points_nonneg _))
  · intro info av rv
    unfold calculate_catalyst_score
    exact min_100_bound (add_nonneg (add_nonneg (add_nonneg (add_nonneg
      (catalyst_volume_points_nonneg _ _)
      (mul_nonneg (indonesian_themes_nonneg _) (by norm_num)))
      (catalyst_insider_points_nonneg _)) (catalyst_institution_points_nonneg _))
      (catalyst_growth_points_nonneg _))
  · intro hs
    unfold calculate_momentum_score
    split_ifs
    · norm_num
    · exact min_100_bound (add_nonneg (add_nonneg (add_nonneg
        (momentum_6m_points_nonneg _) (momentum_3m_points_nonneg _))
        (momentum_rsi_points_nonneg _)) (momentum_ma_points_nonneg _))
  · intro info
    unfold analyze_valuation
    exact clamp_0_100_bound _
  · intro info
    unfold analyze_profitability
    exact clamp_0_100_bound _
  · intro info
    unfold analyze_financial_health
    exact clamp_0_100_bound _
  · intro info
    unfold p1_analyze_growth
    exact clamp_0_100_bound _
  · intro info
    unfold analyze_dividends
    exact clamp_0_100_bound _
  · intro t
    unfold analyze_trend
    exact clamp_0_100_bound _
  · intro m
    unfold p2_analyze_momentum
    exact clamp_0_100_bound _
  · intro v
    unfold analyze_volatility
    exact clamp_0_100_bound _
  · intro v
    unfold analyze_volume
    exact clamp_0_100_bound _
  · intro p
    unfold analyze_patterns
    exact clamp_0_100_bound _
  · intro b h s
    unfold analyze_analyst_recommendations
    dsimp only []
    constructor <;> (split_ifs <;> norm_num)
  · intro hn pc nc
    unfold analyze_news_sentiment
    split_ifs
    · exact clamp_10_90_bound _
    · norm_num
  · intro hd ip
    unfold analyze_institutional_holdings
    constructor <;> (split_ifs <;> norm_num)
  · intro hd b s
    unfold analyze_insider_activity
    constructor <;> (split_ifs <;> norm_num)

/-- A snapshot with a present profit margin of exactly 0 that meets every
other pre-filter gate. -/
def c5_info : Info :=
  { market_cap := some 1000000000, revenue_growth := some 0.2
    profit_margins := some 0 }

/-- A data source serving `c5_info` for one ticker. -/
def c5_fetch (t : String) : Option Info :=
  if t = "ZRO" then some c5_info else none

/-- C5 (counterexample): a ticker with market cap 1B, revenue growth 20%
and profit margin exactly 0 satisfies the claimed retention predicate
(margin ≥ 0) yet is dropped by `quick_multibagger_scan` — `if not
profit_margin` treats the present 0.0 like an absent value. -/
theorem C5_counterexample :
    quick_multibagger_scan c5_fetch ["ZRO"] 50 = []
  ∧ 500000000 ≤ (c5_info.market_cap).getD 0
  ∧ (c5_info.market_cap).getD 0 ≤ 10000000000
  ∧ (c5_info.revenue_growth).getD 0 ≥ 0.15
  ∧ (c5_info.profit_margins).getD 0 ≥ 0 := by
  have hg : ¬ quick_gate c5_info := by
    unfold quick_gate
    norm_num [c5_info]
  refine ⟨?_, by norm_num [c5_info], by norm_num [c5_info],
    by norm_num [c5_info], by norm_num [c5_info]⟩
  unfold quick_multibagger_scan quick_candidates
  norm_num [c5_fetch, hg, List.insertionSort]

/-- C5 (amended): the pre-filter retains a ticker only if its market cap
lies in [0.5B, 10B], its revenue growth is at least 15%, and its profit
margin is strictly positive (a present margin of exactly 0 is dropped by
the truthiness guard, not retained as "margin ≥ 0" would demand);
conversely every gated ticker appears in the output when `top_n` covers
the candidate list; the coarse tally lies in [0, 8]; the candidates are
sorted descending by tally (stably, Python's `list.sort`); and the output
never exceeds `top_n` tickers. -/
theorem C5_quick_scan (fetch : String → Option Info) (tickers : List String)
    (top_n : ℕ) (t : String) :
    (t ∈ quick_multibagger_scan fetch tickers top_n →
      ∃ info, fetch t = some info
        ∧ 500000000 ≤ (info.market_cap).getD 0
        ∧ (info.market_cap).getD 0 ≤ 10000000000
        ∧ (info.revenue_growth).getD 0 ≥ 0.15
        ∧ (info.profit_margins).getD 0 > 0)
  ∧ (∀ info : Info, t ∈ tickers → fetch t = some info →
      500000000 ≤ (info.market_cap).getD 0 →
      (info.market_cap).getD 0 ≤ 10000000000 →
      (info.revenue_growth).getD 0 ≥ 0.15 →
      (info.profit_margins).getD 0 > 0 →
      t ∈ quick_multibagger_scan fetch tickers tickers.length)
  ∧ (∀ info : Info, quick_tally info ≤ 8)
  ∧ ((quick_candidates fetch tickers).insertionSort quick_by_tally).Chain'
      (fun a b => b.2 ≤ a.2)
  ∧ (quick_multibagger_scan fetch tickers top_n).length ≤ top_n := by
  refine ⟨?_, ?_, ?_, quick_candidates_sorted fetch tickers, ?_⟩
  · intro hmem
    unfold quick_multibagger_scan at hmem
    rw [List.mem_map] at hmem
    obtain ⟨p, hp, hpt⟩ := hmem
    have hp2 : p ∈ (quick_candidates fetch tickers).insertionSort quick_by_tally :=
      List.take_subset _ _ hp
    have hp3 : p ∈ quick_candidates fetch tickers :=
      (List.perm_insertionSort quick_by_tally _).mem_iff.mp hp2
    unfold quick_candidates at hp3
    rw [List.mem_filterMap] at hp3
    obtain ⟨s, _, hsp⟩ := hp3
    cases hf : fetch s with
    | none =>
      simp only [hf] at hsp
      exact Option.noConfusion hsp
    | some info =>
      simp only [hf] at hsp
      by_cases hg : quick_gate info
      · rw [if_pos hg] at hsp
        simp only [Option.some.injEq] at hsp
        have hts : t = s := by rw [← hpt, ← hsp]
        unfold quick_gate at hg
        obtain ⟨⟨h1, h2⟩, h3, h4⟩ := hg
        push_neg at h3 h4
        refine ⟨info, by rw [hts]; exact hf, h1, h2, h3.2, ?_⟩
        exact lt_of_le_of_ne h4.2 (Ne.symm h4.1)
      · rw [if_neg hg] at hsp
        exact Option.noConfusion hsp
  · intro info ht hf h1 h2 h3 h4
    have hg : quick_gate info := by
      unfold quick_gate
      refine ⟨⟨h1, h2⟩, ?_, ?_⟩
      · rintro (h0 | hlt)
        · rw [h0] at h3
          norm_num at h3
        · exact absurd h3 (not_le.mpr hlt)
      · rintro (h0 | hlt)
        · rw [h0] at h4
          norm_num at h4
        · exact absurd h4 (lt_asymm hlt)
    have hcand : (t, quick_tally info) ∈ quick_candidates fetch tickers := by
      unfold quick_candidates
      rw [List.mem_filterMap]
      exact ⟨t, ht, by simp only [hf]; rw [if_pos hg]⟩
    have hsorted : (t, quick_tally info)
        ∈ (quick_candidates fetch tickers).insertionSort quick_by_tally :=
      (List.perm_insertionSort quick_by_tally _).mem_iff.mpr hcand
    have hlen : ((quick_candidates fetch tickers).insertionSort quick_by_tally).length
        ≤ tickers.length := by
      rw [(List.perm_insertionSort quick_by_tally _).length_eq]
      exact List.length_filterMap_le _ _
    unfold quick_multibagger_scan
    rw [List.take_of_length_le hlen, List.mem_map]
    exact ⟨(t, quick_tally info), hsorted, rfl⟩
  · intro info
    unfold quick_tally
    split_ifs <;> norm_num
  · unfold quick_multibagger_scan
    rw [List.length_map, List.length_take]
    exact min_le_left _ _

/-- A snapshot passing every pre-filter gate. -/
def c5w_info : Info :=
  { market_cap := some 1000000000, revenue_growth := some 0.2
    profit_margins := some 0.05 }

/-- A data source serving `c5w_info` for one ticker. -/
def c5w_fetch (t : String) : Option Info :=
  if t = "GOOD" then some c5w_info else none

/-- C5 witness: the amended theorem's retention direction at a concrete
gated ticker. -/
theorem C5_witness :
    "GOOD" ∈ quick_multibagger_scan c5w_fetch ["GOOD"] (["GOOD"].length) :=
  (C5_quick_scan c5w_fetch ["GOOD"] 1 "GOOD").2.1 c5w_info (by simp)
    (by simp [c5w_fetch]) (by norm_num [c5w_info]) (by norm_num [c5w_info])
    (by norm_num [c5w_info]) (by norm_num [c5w_info])
